import Mathlib

/-!
Shallow embedding of the sparrow Conan recipe (`conanfile.py`) and its test
package (`conan_test_package/conanfile.py`), with theorems about option
pruning, toolchain validation, dependency resolution, parameter generation,
component declaration and the test runner.
-/

set_option autoImplicit false

namespace Sparrow

/-- A parsed package or compiler version: the dot-separated numeric
components, e.g. "1.3.0" is `[1, 3, 0]`. -/
abbrev VersionT := List Nat

/-- Semantic (componentwise, zero-padded) strict order on parsed versions,
modelling `conan.tools.scm.Version` comparison: components are compared
numerically left to right, and a missing component counts as `0`. -/
def verLt : VersionT → VersionT → Bool
  | [], [] => false
  | _ :: _, [] => false
  | [], b :: bs => if b = 0 then verLt [] bs else true
  | a :: as, b :: bs =>
    if a < b then true
    else if b < a then false
    else verLt as bs

/-- `verGe a b` is `Version(a) >= Version(b)` in the Conan sense. -/
def verGe (a b : VersionT) : Bool := !(verLt a b)

/-- The recipe's option state after construction from defaults and
overrides. Every option of the `options` table is always present except
`fPIC`, which `config_options` / `configure` may delete, so it alone is
optional here. -/
structure OptionSet where
  shared : Bool
  fPIC : Option Bool
  use_date_polyfill : Bool
  build_tests : Bool
  build_benchmarks : Bool
  generate_documentation : Bool
  export_json_reader : Bool
  deriving DecidableEq, Repr

/-- The `default_options` table of the recipe. -/
def defaultOptions : OptionSet where
  shared := false
  fPIC := some true
  use_date_polyfill := false
  build_tests := false
  build_benchmarks := false
  generate_documentation := false
  export_json_reader := false

/-- `SparrowRecipe.config_options`: on Windows, `del self.options.fPIC`
removes the option entirely. -/
def config_options (osName : String) (o : OptionSet) : OptionSet :=
  if osName = "Windows" then { o with fPIC := none } else o

/-- `SparrowRecipe.configure`: when `shared` is set,
`self.options.rm_safe("fPIC")` removes `fPIC` if present, never raising. -/
def configure (o : OptionSet) : OptionSet :=
  if o.shared then { o with fPIC := none } else o

/-- The identity of the host compiler as the recipe sees it: the settings
`compiler`, `compiler.version` (parsed) and `compiler.cppstd`
(`none` when unset, else the numeric standard, `98` for C++98). -/
structure Toolchain where
  family : String
  version : VersionT
  cppstd : Option Nat
  deriving DecidableEq, Repr

/-- `SparrowRecipe._min_cppstd`: the required C++ standard. -/
def min_cppstd : Nat := 20

/-- `SparrowRecipe._compilers_minimum_version`: per compiler family, the
minimum acceptable version, already parsed. -/
def compilers_minimum_version : List (String × VersionT) :=
  [("apple-clang", [16]), ("clang", [18]), ("gcc", [12]), ("msvc", [194])]

/-- The two failure kinds of `SparrowRecipe.validate`. In the Python source
both are raised as `ConanInvalidConfiguration`, carrying only a message
string; the two constructors record the two distinct raise sites (the
`check_min_cppstd` helper, and the explicit compiler-version raise). -/
inductive ValidateError where
  | standardTooLow (msg : String)
  | incompatibleToolchain (msg : String)
  deriving DecidableEq, Repr

/-- Rank of a cppstd value in Conan's ordering of C++ standards, where 98
precedes 11; modelled from `conan.tools.build.cppstd`. -/
def cppstdRank (s : Nat) : Nat := if s = 98 then 0 else s

/-- Lines 75-76 of `validate`: when the toolchain declares a `cppstd`, it
is checked against `_min_cppstd` by `check_min_cppstd` (modelled from that
Conan helper, which raises `ConanInvalidConfiguration` with a message
naming the current and required standards); when no `cppstd` is declared
the whole check is skipped. -/
def cppstdGate (tc : Toolchain) : Except ValidateError Unit :=
  match tc.cppstd with
  | none => Except.ok ()
  | some std =>
    if cppstdRank std < cppstdRank min_cppstd then
      Except.error (ValidateError.standardTooLow
        s!"Current cppstd ({std}) is lower than the required C++ standard ({min_cppstd}).")
    else Except.ok ()

/-- The exact message of the compiler-version raise in `validate`:
`f"{self.ref} requires C++{self._min_cppstd}, which your compiler does not support."` -/
def incompatMsg (ref : String) : String :=
  s!"{ref} requires C++{min_cppstd}, which your compiler does not support."

/-- Lines 78-83 of `validate`: look the compiler family up in
`_compilers_minimum_version` (with default `False`, i.e. `none`); when an
entry exists and the compiler version is strictly below it, raise
`ConanInvalidConfiguration`; otherwise accept. -/
def compilerVersionGate (ref : String) (tc : Toolchain) : Except ValidateError Unit :=
  match compilers_minimum_version.lookup tc.family with
  | some minv =>
    if verLt tc.version minv then
      Except.error (ValidateError.incompatibleToolchain (incompatMsg ref))
    else Except.ok ()
  | none => Except.ok ()

/-- `SparrowRecipe.validate`: the cppstd gate runs first and a raise there
aborts the method before the compiler-version gate runs. -/
def validate (ref : String) (tc : Toolchain) : Except ValidateError Unit :=
  match cppstdGate tc with
  | Except.error e => Except.error e
  | Except.ok _ => compilerVersionGate ref tc

/-- Whether a `validate` outcome is the compiler-version rejection. -/
def isIncompat : Except ValidateError Unit → Bool
  | Except.error (ValidateError.incompatibleToolchain _) => true
  | _ => false

/-- Whether a `validate` outcome is the language-standard rejection. -/
def isStdErr : Except ValidateError Unit → Bool
  | Except.error (ValidateError.standardTooLow _) => true
  | _ => false

/-- Scope of a declared dependency: `requires` (runtime) or
`test_requires` (test-only). -/
inductive Scope where
  | runtime
  | testOnly
  deriving DecidableEq, Repr

/-- One dependency declared by `requirements`: target reference, scope,
and whether it was declared with `transitive_headers=True`. -/
structure RequirementEdge where
  target : String
  scope : Scope
  transitiveHeaders : Bool
  deriving DecidableEq, Repr

/-- `SparrowRecipe.requirements`, in source order: the date polyfill, then
the `export_json_reader` / `build_tests` if/elif for `nlohmann_json`, then
the two test frameworks, then the benchmark harness. -/
def requirements (o : OptionSet) : List RequirementEdge :=
  (if o.use_date_polyfill then
    [{ target := "date/3.0.3", scope := Scope.runtime, transitiveHeaders := false }]
  else []) ++
  (if o.export_json_reader then
    [{ target := "nlohmann_json/3.12.0", scope := Scope.runtime, transitiveHeaders := true }]
  else if o.build_tests then
    [{ target := "nlohmann_json/3.12.0", scope := Scope.testOnly, transitiveHeaders := false }]
  else []) ++
  (if o.build_tests then
    [{ target := "doctest/2.4.11", scope := Scope.testOnly, transitiveHeaders := false },
     { target := "catch2/3.7.0", scope := Scope.testOnly, transitiveHeaders := false }]
  else []) ++
  (if o.build_benchmarks then
    [{ target := "benchmark/1.9.4", scope := Scope.testOnly, transitiveHeaders := false }]
  else [])

/-- The JSON-parsing dependency of the recipe. -/
def isJsonEdge (e : RequirementEdge) : Bool := e.target = "nlohmann_json/3.12.0"

/-- `SparrowRecipe.build_requirements`: the CMake tool requirement, plus
Doxygen when documentation generation is on. -/
def build_requirements (o : OptionSet) : List String :=
  ["cmake/[>=3.28.1 <4.2.0]"] ++
  (if o.generate_documentation then ["doxygen/1.9.4"] else [])

/-- `conan.tools.microsoft.is_msvc` (modelled from that Conan helper): the
compiler setting is one of the two names of the MSVC family. -/
def isMsvcFamily (family : String) : Bool :=
  family = "msvc" || family = "Visual Studio"

/-- `SparrowRecipe.generate`: the CMake toolchain variables, in assignment
order; `USE_LARGE_INT_PLACEHOLDERS` is appended only under `is_msvc`. -/
def generate (o : OptionSet) (family : String) : List (String × Bool) :=
  [("USE_DATE_POLYFILL", o.use_date_polyfill),
   ("BUILD_TESTS", o.build_tests),
   ("BUILD_BENCHMARKS", o.build_benchmarks),
   ("CREATE_JSON_READER_TARGET", o.export_json_reader)] ++
  (if isMsvcFamily family then [("USE_LARGE_INT_PLACEHOLDERS", true)] else [])

/-- First line of `SparrowRecipe.package_info`: the library-name suffix is
`"d"` exactly when the build type is `Debug`, the package version is
present, and it is at least `1.3.0`. -/
def nameSuffix (buildType : String) (version : Option VersionT) : String :=
  if buildType = "Debug" then
    match version with
    | some w => if verGe w [1, 3, 0] then "d" else ""
    | none => ""
  else ""

/-- One entry of `self.cpp_info.components` as `package_info` fills it in:
name, produced library names, the two cmake properties, and the component's
`requires` edges. -/
structure ComponentDescriptor where
  name : String
  libs : List String
  cmakeFileName : String
  cmakeTargetName : String
  requires : List String
  deriving DecidableEq, Repr

/-- `SparrowRecipe.package_info`: the `sparrow` component is always
declared (with the date polyfill edges when that option is set), and the
`json_reader` component is declared only under `export_json_reader`. -/
def package_info (o : OptionSet) (buildType : String) (version : Option VersionT) :
    List ComponentDescriptor :=
  let pfx := nameSuffix buildType version
  { name := "sparrow"
    libs := ["sparrow" ++ pfx]
    cmakeFileName := "sparrow"
    cmakeTargetName := "sparrow::sparrow"
    requires := if o.use_date_polyfill then ["date::date", "date::date-tz"] else [] } ::
  (if o.export_json_reader then
    [{ name := "json_reader"
       libs := ["sparrow_json_reader" ++ pfx]
       cmakeFileName := "sparrow-json-reader"
       cmakeTargetName := "sparrow::json_reader"
       requires := ["sparrow", "nlohmann_json::nlohmann_json"] }]
  else [])

end Sparrow

namespace TestPackage

/-- An observable step of `TestPackageConan.test`: an external command run,
or an informational / error log line. -/
inductive TestAction where
  | runCmd (path : String)
  | logInfo (msg : String)
  | logError (msg : String)
  deriving DecidableEq, Repr

/-- How `TestPackageConan.test` finishes: the method returns, or the
process terminates via `sys.exit`. -/
inductive TestResult where
  | completed
  | exited (code : Nat)
  deriving DecidableEq, Repr

/-- The environment `TestPackageConan.test` observes: whether binaries can
run (`can_run`), whether the companion `json_reader` component was built
(the feature flag of the tested package; the method never reads it), and
the two `os.path.exists` probes for the secondary executable. -/
structure TestEnv where
  canRun : Bool
  companionBuilt : Bool
  jsonTestOnPath : Bool
  jsonTestExeOnPath : Bool
  deriving DecidableEq, Repr

/-- The fixed relative path of the secondary executable inside the build
bin directory. -/
def jsonReaderTestPath : String := "json_reader_test"

/-- `TestPackageConan.test`: under `can_run`, run the `standalone`
executable, then run the secondary executable when either of its two path
forms exists, else log an error and `sys.exit(1)`. External command runs
are opaque collaborators modelled as succeeding. -/
def test (env : TestEnv) : List TestAction × TestResult :=
  if env.canRun then
    if env.jsonTestOnPath || env.jsonTestExeOnPath then
      ([TestAction.runCmd "standalone",
        TestAction.logInfo "Running json_reader test",
        TestAction.runCmd jsonReaderTestPath], TestResult.completed)
    else
      ([TestAction.runCmd "standalone",
        TestAction.logError "json_reader test not found"], TestResult.exited 1)
  else ([], TestResult.completed)

end TestPackage

/-! Helper lemmas shared by the validation theorems. -/

/-- The cppstd gate either accepts or raises the standard error; it never
produces the compiler-version error. -/
theorem cppstdGate_cases (tc : Sparrow.Toolchain) :
    Sparrow.cppstdGate tc = Except.ok () ∨
    ∃ m, Sparrow.cppstdGate tc = Except.error (Sparrow.ValidateError.standardTooLow m) := by
  cases hc : tc.cppstd with
  | none => exact Or.inl (by unfold Sparrow.cppstdGate; rw [hc])
  | some std =>
    by_cases h : Sparrow.cppstdRank std < Sparrow.cppstdRank Sparrow.min_cppstd
    · have hmsg : Sparrow.cppstdGate tc =
          Except.error (Sparrow.ValidateError.standardTooLow
            s!"Current cppstd ({std}) is lower than the required C++ standard ({Sparrow.min_cppstd}).") := by
        unfold Sparrow.cppstdGate
        rw [hc]
        exact if_pos h
      exact Or.inr ⟨_, hmsg⟩
    · refine Or.inl ?_
      unfold Sparrow.cppstdGate
      rw [hc]
      exact if_neg h

/-- The compiler-version gate either accepts or raises the
incompatible-toolchain error; it never raises the standard error. -/
theorem compilerVersionGate_not_std (ref : String) (tc : Sparrow.Toolchain) :
    Sparrow.isStdErr (Sparrow.compilerVersionGate ref tc) = false := by
  unfold Sparrow.compilerVersionGate
  cases Sparrow.compilers_minimum_version.lookup tc.family with
  | none => rfl
  | some minv =>
    by_cases h : Sparrow.verLt tc.version minv = true <;> simp [h, Sparrow.isStdErr]

/-- Evaluation of the compiler-version gate when the family has a table
entry. -/
theorem compilerVersionGate_some (ref : String) (tc : Sparrow.Toolchain)
    (minv : Sparrow.VersionT)
    (hmin : Sparrow.compilers_minimum_version.lookup tc.family = some minv) :
    Sparrow.compilerVersionGate ref tc =
      if Sparrow.verLt tc.version minv then
        Except.error (Sparrow.ValidateError.incompatibleToolchain (Sparrow.incompatMsg ref))
      else Except.ok () := by
  unfold Sparrow.compilerVersionGate
  rw [hmin]

/-- Evaluation of the compiler-version gate when the family has no table
entry. -/
theorem compilerVersionGate_none (ref : String) (tc : Sparrow.Toolchain)
    (hmin : Sparrow.compilers_minimum_version.lookup tc.family = none) :
    Sparrow.compilerVersionGate ref tc = Except.ok () := by
  unfold Sparrow.compilerVersionGate
  rw [hmin]

/-- C1 (counterexample): the toolchain (gcc, version 5, declared cppstd 17)
has its family in the minimum-version table with its version strictly below
the table minimum, yet `validate` does not reject it with the
incompatible-toolchain error: the language-standard gate fires first, so the
rejection is the standard error instead. -/
theorem C1_counterexample :
    Sparrow.compilers_minimum_version.lookup "gcc" = some [12] ∧
    Sparrow.verLt [5] [12] = true ∧
    Sparrow.isIncompat (Sparrow.validate "sparrow/1.3.0" ⟨"gcc", [5], some 17⟩) = false ∧
    Sparrow.isStdErr (Sparrow.validate "sparrow/1.3.0" ⟨"gcc", [5], some 17⟩) = true :=
  ⟨rfl, rfl, rfl, rfl⟩

/-- C1 (amended): for every toolchain that passes the language-standard gate
and whose family appears in the minimum-version table, `validate` rejects
with the incompatible-toolchain error iff the toolchain's version is
strictly below the table minimum under semantic version ordering (a version
equal to the minimum is accepted); for every toolchain whose family is
absent from the table, `validate` never rejects on version. -/
theorem C1_version_gate (ref : String) (tc : Sparrow.Toolchain) :
    (Sparrow.cppstdGate tc = Except.ok () →
      ∀ minv, Sparrow.compilers_minimum_version.lookup tc.family = some minv →
        (Sparrow.isIncompat (Sparrow.validate ref tc) = true ↔
          Sparrow.verLt tc.version minv = true) ∧
        (Sparrow.verLt tc.version minv = false →
          Sparrow.validate ref tc = Except.ok ())) ∧
    (Sparrow.compilers_minimum_version.lookup tc.family = none →
      Sparrow.isIncompat (Sparrow.validate ref tc) = false) := by
  constructor
  · intro h minv hmin
    have hv : Sparrow.validate ref tc = Sparrow.compilerVersionGate ref tc := by
      unfold Sparrow.validate
      rw [h]
    rw [hv, compilerVersionGate_some ref tc minv hmin]
    by_cases hlt : Sparrow.verLt tc.version minv = true
    · rw [if_pos hlt]
      refine ⟨⟨fun _ => hlt, fun _ => rfl⟩, fun hf => ?_⟩
      rw [hf] at hlt
      cases hlt
    · rw [if_neg hlt]
      refine ⟨⟨fun hi => ?_, fun hv2 => absurd hv2 hlt⟩, fun _ => rfl⟩
      simp [Sparrow.isIncompat] at hi
  · intro hnone
    rcases cppstdGate_cases tc with hok | ⟨m, herr⟩
    · have hv : Sparrow.validate ref tc = Except.ok () := by
        unfold Sparrow.validate
        rw [hok]
        exact compilerVersionGate_none ref tc hnone
      rw [hv]
      rfl
    · have hv : Sparrow.validate ref tc =
          Except.error (Sparrow.ValidateError.standardTooLow m) := by
        unfold Sparrow.validate
        rw [herr]
      rw [hv]
      rfl

/-- C1 (witness): gcc 5 with no declared cppstd is rejected on version,
gcc 12 (the exact table minimum) is accepted, and the unknown family
intel-cc is never rejected on version. -/
theorem C1_version_gate_witness :
    Sparrow.isIncompat (Sparrow.validate "sparrow/1.3.0" ⟨"gcc", [5], none⟩) = true ∧
    Sparrow.validate "sparrow/1.3.0" ⟨"gcc", [12], none⟩ = Except.ok () ∧
    Sparrow.isIncompat (Sparrow.validate "sparrow/1.3.0" ⟨"intel-cc", [1], none⟩) = false := by
  refine ⟨?_, ?_, ?_⟩
  · exact ((C1_version_gate "sparrow/1.3.0" ⟨"gcc", [5], none⟩).1 rfl [12] rfl).1.mpr rfl
  · exact ((C1_version_gate "sparrow/1.3.0" ⟨"gcc", [12], none⟩).1 rfl [12] rfl).2 rfl
  · exact (C1_version_gate "sparrow/1.3.0" ⟨"intel-cc", [1], none⟩).2 rfl

/-- C6 (counterexample): two rejected toolchains differing in family, table
minimum and actual version produce the very same error value, whose message
names only the package reference and the required C++ standard — so the
raised error does not identify the family, the required minimum or the
actual version. -/
theorem C6_counterexample :
    Sparrow.validate "sparrow/1.2.0" ⟨"gcc", [5], none⟩ =
      Sparrow.validate "sparrow/1.2.0" ⟨"msvc", [190], none⟩ ∧
    Sparrow.validate "sparrow/1.2.0" ⟨"gcc", [5], none⟩ =
      Except.error (Sparrow.ValidateError.incompatibleToolchain
        "sparrow/1.2.0 requires C++20, which your compiler does not support.") :=
  ⟨rfl, rfl⟩

/-- C6 (amended): whenever `validate` rejects a toolchain on version, the
raised error is the incompatible-toolchain error whose message depends only
on the package reference (it names the reference and the required C++
standard), carrying no indication of the toolchain family, the required
minimum version or the actual version supplied. -/
theorem C6_error_message (ref : String) (tc : Sparrow.Toolchain)
    (h : Sparrow.isIncompat (Sparrow.validate ref tc) = true) :
    Sparrow.validate ref tc =
      Except.error (Sparrow.ValidateError.incompatibleToolchain (Sparrow.incompatMsg ref)) := by
  rcases cppstdGate_cases tc with hok | ⟨m, herr⟩
  · have hv : Sparrow.validate ref tc = Sparrow.compilerVersionGate ref tc := by
      unfold Sparrow.validate
      rw [hok]
    rw [hv] at h ⊢
    cases hl : Sparrow.compilers_minimum_version.lookup tc.family with
    | none =>
      rw [compilerVersionGate_none ref tc hl] at h
      simp [Sparrow.isIncompat] at h
    | some minv =>
      rw [compilerVersionGate_some ref tc minv hl] at h ⊢
      by_cases hlt : Sparrow.verLt tc.version minv = true
      · rw [if_pos hlt]
      · rw [if_neg hlt] at h
        simp [Sparrow.isIncompat] at h
  · have hv : Sparrow.validate ref tc =
        Except.error (Sparrow.ValidateError.standardTooLow m) := by
      unfold Sparrow.validate
      rw [herr]
    rw [hv] at h
    simp [Sparrow.isIncompat] at h

/-- C6 (witness): clang 10 with no declared cppstd is rejected on version
and the error carries exactly the reference-only message. -/
theorem C6_error_message_witness :
    Sparrow.validate "sparrow/1.2.0" ⟨"clang", [10], none⟩ =
      Except.error (Sparrow.ValidateError.incompatibleToolchain
        (Sparrow.incompatMsg "sparrow/1.2.0")) :=
  C6_error_message "sparrow/1.2.0" ⟨"clang", [10], none⟩ rfl

/-- C10: for every toolchain that declares no explicit cppstd, `validate`
performs no standard check at all: it can never produce the standard-too-low
rejection, and its outcome is exactly that of the compiler family/version
gate. -/
theorem C10_no_cppstd_no_standard_check (ref : String) (tc : Sparrow.Toolchain)
    (h : tc.cppstd = none) :
    Sparrow.validate ref tc = Sparrow.compilerVersionGate ref tc ∧
    Sparrow.isStdErr (Sparrow.validate ref tc) = false := by
  have hg : Sparrow.cppstdGate tc = Except.ok () := by
    unfold Sparrow.cppstdGate
    rw [h]
  have hv : Sparrow.validate ref tc = Sparrow.compilerVersionGate ref tc := by
    unfold Sparrow.validate
    rw [hg]
  refine ⟨hv, ?_⟩
  rw [hv]
  exact compilerVersionGate_not_std ref tc

/-- C10 (witness): msvc 193 declares no cppstd; `validate` reduces to the
version gate and is not a standard rejection. -/
theorem C10_no_cppstd_no_standard_check_witness :
    Sparrow.validate "sparrow/1.3.0" ⟨"msvc", [193], none⟩ =
      Sparrow.compilerVersionGate "sparrow/1.3.0" ⟨"msvc", [193], none⟩ ∧
    Sparrow.isStdErr (Sparrow.validate "sparrow/1.3.0" ⟨"msvc", [193], none⟩) = false :=
  C10_no_cppstd_no_standard_check "sparrow/1.3.0" ⟨"msvc", [193], none⟩ rfl

/-- C2: if the export option is true, `requirements` emits exactly one
JSON-parsing edge — runtime scoped and transitive-header-visible — and never
the test-only JSON edge, even when build_tests is also true; if export is
false and build_tests is true, it emits exactly one JSON-parsing edge,
scoped test-only and non-transitive. -/
theorem C2_json_requirement (o : Sparrow.OptionSet) :
    (o.export_json_reader = true →
      (Sparrow.requirements o).filter Sparrow.isJsonEdge =
        [{ target := "nlohmann_json/3.12.0", scope := Sparrow.Scope.runtime,
           transitiveHeaders := true }]) ∧
    (o.export_json_reader = false → o.build_tests = true →
      (Sparrow.requirements o).filter Sparrow.isJsonEdge =
        [{ target := "nlohmann_json/3.12.0", scope := Sparrow.Scope.testOnly,
           transitiveHeaders := false }]) := by
  obtain ⟨s, f, d, t, b, g, e⟩ := o
  cases d <;> cases t <;> cases b <;> cases e <;>
    simp [Sparrow.requirements, Sparrow.isJsonEdge, List.filter]

/-- C2 (witness): with export and build_tests both on, the only JSON edge is
the runtime transitive one; with export off and build_tests on, it is the
test-only non-transitive one. -/
theorem C2_json_requirement_witness :
    (Sparrow.requirements { Sparrow.defaultOptions with
        export_json_reader := true, build_tests := true }).filter Sparrow.isJsonEdge =
      [{ target := "nlohmann_json/3.12.0", scope := Sparrow.Scope.runtime,
         transitiveHeaders := true }] ∧
    (Sparrow.requirements { Sparrow.defaultOptions with
        build_tests := true }).filter Sparrow.isJsonEdge =
      [{ target := "nlohmann_json/3.12.0", scope := Sparrow.Scope.testOnly,
         transitiveHeaders := false }] :=
  ⟨(C2_json_requirement _).1 rfl, (C2_json_requirement _).2 rfl rfl⟩

/-- C3 (counterexample): in a runnable environment where the companion was
not built and the secondary executable is absent in both path forms, the
test runner still terminates the process with exit status 1 — the companion
feature flag does not suppress the hard failure. -/
theorem C3_counterexample :
    (TestPackage.TestEnv.companionBuilt ⟨true, false, false, false⟩) = false ∧
    (TestPackage.test ⟨true, false, false, false⟩).2 = TestPackage.TestResult.exited 1 :=
  ⟨rfl, rfl⟩

/-- C3 (amended): when the environment can run binaries, the test runner
terminates the process with exit status 1 exactly when the secondary test
executable is absent from its fixed relative path in both plain and `.exe`
form — regardless of whether the companion component was built; the feature
flag is never consulted. -/
theorem C3_secondary_missing (env : TestPackage.TestEnv)
    (h : env.canRun = true) :
    (TestPackage.test env).2 = TestPackage.TestResult.exited 1 ↔
      (env.jsonTestOnPath = false ∧ env.jsonTestExeOnPath = false) := by
  obtain ⟨c, cb, p1, p2⟩ := env
  subst h
  cases p1 <;> cases p2 <;> simp [TestPackage.test]

/-- C3 (witness): even with the companion built, an absent secondary
executable exits with status 1. -/
theorem C3_secondary_missing_witness :
    (TestPackage.test ⟨true, true, false, false⟩).2 = TestPackage.TestResult.exited 1 :=
  (C3_secondary_missing ⟨true, true, false, false⟩ rfl).mpr ⟨rfl, rfl⟩

/-- C4: `package_info` applies a non-empty debug name suffix iff the build
type is Debug and the package version is present and at least the threshold
1.3.0; version 1.3.0 with Debug yields the suffixed name, 1.2.9 with Debug
yields no suffix, a Release build never yields a suffix, and every declared
library name of every component carries exactly this suffix. -/
theorem C4_debug_suffix (o : Sparrow.OptionSet) (bt : String)
    (v : Option Sparrow.VersionT) :
    (Sparrow.nameSuffix bt v ≠ "" ↔
      (bt = "Debug" ∧ ∃ w, v = some w ∧ Sparrow.verGe w [1, 3, 0] = true)) ∧
    Sparrow.nameSuffix "Debug" (some [1, 3, 0]) = "d" ∧
    Sparrow.nameSuffix "Debug" (some [1, 2, 9]) = "" ∧
    Sparrow.nameSuffix "Release" v = "" ∧
    (Sparrow.package_info o bt v).map Sparrow.ComponentDescriptor.libs =
      [["sparrow" ++ Sparrow.nameSuffix bt v]] ++
        (if o.export_json_reader then
          [["sparrow_json_reader" ++ Sparrow.nameSuffix bt v]] else []) := by
  refine ⟨?_, rfl, rfl, ?_, ?_⟩
  · by_cases hbt : bt = "Debug"
    · subst hbt
      cases v with
      | none => simp [Sparrow.nameSuffix]
      | some w =>
        by_cases hw : Sparrow.verGe w [1, 3, 0] = true
        · simp [Sparrow.nameSuffix, hw]
        · simp [Sparrow.nameSuffix, hw]
    · simp [Sparrow.nameSuffix, hbt]
  · simp [Sparrow.nameSuffix]
  · by_cases he : o.export_json_reader = true
    · simp [Sparrow.package_info, he]
    · simp [Sparrow.package_info, he]

/-- C4 (witness): version 1.3.0 with a Debug build yields the suffixed
name. -/
theorem C4_debug_suffix_witness :
    Sparrow.nameSuffix "Debug" (some [1, 3, 0]) = "d" :=
  (C4_debug_suffix Sparrow.defaultOptions "Release" none).2.1

/-- C5: `package_info` always declares the core sparrow component, declares
the json_reader companion component iff the export option is true (no
companion descriptor of any kind otherwise), and whenever the companion is
declared its requirement edges include the core component and the
JSON-parsing package. -/
theorem C5_components (o : Sparrow.OptionSet) (bt : String)
    (v : Option Sparrow.VersionT) :
    (Sparrow.package_info o bt v).map Sparrow.ComponentDescriptor.name =
      "sparrow" :: (if o.export_json_reader then ["json_reader"] else []) ∧
    (o.export_json_reader = false →
      ∀ c ∈ Sparrow.package_info o bt v, c.name = "sparrow") ∧
    (o.export_json_reader = true →
      ∃ c ∈ Sparrow.package_info o bt v, c.name = "json_reader" ∧
        "sparrow" ∈ c.requires ∧ "nlohmann_json::nlohmann_json" ∈ c.requires) := by
  cases he : o.export_json_reader with
  | false =>
    refine ⟨by simp [Sparrow.package_info, he], fun _ c hc => ?_, fun hf => ?_⟩
    · simp [Sparrow.package_info, he] at hc
      subst hc
      rfl
    · simp at hf
  | true =>
    refine ⟨by simp [Sparrow.package_info, he], fun hf => ?_, fun _ => ?_⟩
    · simp at hf
    · exact ⟨{ name := "json_reader",
               libs := ["sparrow_json_reader" ++ Sparrow.nameSuffix bt v],
               cmakeFileName := "sparrow-json-reader",
               cmakeTargetName := "sparrow::json_reader",
               requires := ["sparrow", "nlohmann_json::nlohmann_json"] },
             by simp [Sparrow.package_info, he],
             rfl, by simp, by simp⟩

/-- C5 (witness): with the export option on, exactly the two components are
declared and the companion requires the core and the JSON package. -/
theorem C5_components_witness :
    (Sparrow.package_info { Sparrow.defaultOptions with export_json_reader := true }
        "Release" (some [1, 3, 0])).map Sparrow.ComponentDescriptor.name =
      ["sparrow", "json_reader"] ∧
    ∃ c ∈ Sparrow.package_info { Sparrow.defaultOptions with export_json_reader := true }
        "Release" (some [1, 3, 0]), c.name = "json_reader" ∧
        "sparrow" ∈ c.requires ∧ "nlohmann_json::nlohmann_json" ∈ c.requires := by
  refine ⟨?_, (C5_components _ _ _).2.2 rfl⟩
  have h := (C5_components { Sparrow.defaultOptions with export_json_reader := true }
    "Release" (some [1, 3, 0])).1
  simpa using h

/-- C7: when the toolchain family is the MSVC family, `generate` includes
the USE_LARGE_INT_PLACEHOLDERS parameter set to true regardless of any
user-supplied option values; for every other family the parameter is absent
from the output mapping. -/
theorem C7_large_int_placeholders (o : Sparrow.OptionSet) (family : String) :
    (Sparrow.isMsvcFamily family = true →
      (Sparrow.generate o family).lookup "USE_LARGE_INT_PLACEHOLDERS" = some true) ∧
    (Sparrow.isMsvcFamily family = false →
      (Sparrow.generate o family).lookup "USE_LARGE_INT_PLACEHOLDERS" = none) := by
  constructor
  · intro h
    have hg : Sparrow.generate o family =
        [("USE_DATE_POLYFILL", o.use_date_polyfill), ("BUILD_TESTS", o.build_tests),
         ("BUILD_BENCHMARKS", o.build_benchmarks),
         ("CREATE_JSON_READER_TARGET", o.export_json_reader),
         ("USE_LARGE_INT_PLACEHOLDERS", true)] := by
      unfold Sparrow.generate
      rw [h]
      rfl
    rw [hg]
    rfl
  · intro h
    have hg : Sparrow.generate o family =
        [("USE_DATE_POLYFILL", o.use_date_polyfill), ("BUILD_TESTS", o.build_tests),
         ("BUILD_BENCHMARKS", o.build_benchmarks),
         ("CREATE_JSON_READER_TARGET", o.export_json_reader)] := by
      unfold Sparrow.generate
      rw [h]
      rfl
    rw [hg]
    rfl

/-- C7 (witness): msvc gets the forced parameter, gcc does not. -/
theorem C7_large_int_placeholders_witness :
    (Sparrow.generate Sparrow.defaultOptions "msvc").lookup
      "USE_LARGE_INT_PLACEHOLDERS" = some true ∧
    (Sparrow.generate Sparrow.defaultOptions "gcc").lookup
      "USE_LARGE_INT_PLACEHOLDERS" = none :=
  ⟨(C7_large_int_placeholders Sparrow.defaultOptions "msvc").1 rfl,
   (C7_large_int_placeholders Sparrow.defaultOptions "gcc").2 rfl⟩

/-- C8: after `config_options` and `configure` run, the option set handed
to the validator and resolver never contains fPIC when the target OS is
Windows or when shared is true; the removal yields absence (`none`), not a
false value, and the pruning functions are total (no error is raised). -/
theorem C8_fpic_pruned (osName : String) (o : Sparrow.OptionSet) :
    (osName = "Windows" →
      (Sparrow.configure (Sparrow.config_options osName o)).fPIC = none) ∧
    (o.shared = true →
      (Sparrow.configure (Sparrow.config_options osName o)).fPIC = none) ∧
    (Sparrow.configure (Sparrow.config_options osName o)).shared = o.shared := by
  obtain ⟨s, f, d, t, b, g, e⟩ := o
  by_cases hw : osName = "Windows" <;> cases s <;>
    simp [Sparrow.config_options, Sparrow.configure, hw]

/-- C8 (witness): on Windows fPIC is pruned away; a shared build on Linux
also prunes it. -/
theorem C8_fpic_pruned_witness :
    (Sparrow.configure (Sparrow.config_options "Windows" Sparrow.defaultOptions)).fPIC
      = none ∧
    (Sparrow.configure (Sparrow.config_options "Linux"
        { Sparrow.defaultOptions with shared := true })).fPIC = none :=
  ⟨(C8_fpic_pruned "Windows" Sparrow.defaultOptions).1 rfl,
   (C8_fpic_pruned "Linux" { Sparrow.defaultOptions with shared := true }).2.1 rfl⟩

/-- C9: the generated parameter mapping has exactly the four option-derived
keys, each bound to the corresponding option value, plus
USE_LARGE_INT_PLACEHOLDERS exactly under the MSVC family; in particular the
shared, fPIC and generate_documentation options are never copied into it. -/
theorem C9_parameter_mapping (o : Sparrow.OptionSet) (family : String) :
    (Sparrow.generate o family).map Prod.fst =
      ["USE_DATE_POLYFILL", "BUILD_TESTS", "BUILD_BENCHMARKS",
       "CREATE_JSON_READER_TARGET"] ++
        (if Sparrow.isMsvcFamily family then ["USE_LARGE_INT_PLACEHOLDERS"] else []) ∧
    (Sparrow.generate o family).lookup "USE_DATE_POLYFILL" = some o.use_date_polyfill ∧
    (Sparrow.generate o family).lookup "BUILD_TESTS" = some o.build_tests ∧
    (Sparrow.generate o family).lookup "BUILD_BENCHMARKS" = some o.build_benchmarks ∧
    (Sparrow.generate o family).lookup "CREATE_JSON_READER_TARGET"
      = some o.export_json_reader := by
  by_cases h : Sparrow.isMsvcFamily family = true
  · have hg : Sparrow.generate o family =
        [("USE_DATE_POLYFILL", o.use_date_polyfill), ("BUILD_TESTS", o.build_tests),
         ("BUILD_BENCHMARKS", o.build_benchmarks),
         ("CREATE_JSON_READER_TARGET", o.export_json_reader),
         ("USE_LARGE_INT_PLACEHOLDERS", true)] := by
      unfold Sparrow.generate
      rw [h]
      rfl
    rw [hg, if_pos h]
    exact ⟨rfl, rfl, rfl, rfl, rfl⟩
  · have hf : Sparrow.isMsvcFamily family = false := by
      cases hb : Sparrow.isMsvcFamily family
      · rfl
      · exact absurd hb h
    have hg : Sparrow.generate o family =
        [("USE_DATE_POLYFILL", o.use_date_polyfill), ("BUILD_TESTS", o.build_tests),
         ("BUILD_BENCHMARKS", o.build_benchmarks),
         ("CREATE_JSON_READER_TARGET", o.export_json_reader)] := by
      unfold Sparrow.generate
      rw [hf]
      rfl
    rw [hg, if_neg h]
    exact ⟨rfl, rfl, rfl, rfl, rfl⟩

/-- C9 (witness): for a non-MSVC family the mapping has exactly the four
keys. -/
theorem C9_parameter_mapping_witness :
    (Sparrow.generate Sparrow.defaultOptions "gcc").map Prod.fst =
      ["USE_DATE_POLYFILL", "BUILD_TESTS", "BUILD_BENCHMARKS",
       "CREATE_JSON_READER_TARGET"] := by
  have h := (C9_parameter_mapping Sparrow.defaultOptions "gcc").1
  simpa using h
